import Mathlib

/-!
Verification of the flyteadmin authentication / dual-protocol gateway subsystem.

This file shallowly embeds the Go sources:
  * `auth/auth_context.go` — the authentication context, its construction,
    per-host OAuth2 descriptor resolution, and the anonymous-method override
    of the wrapped gRPC authentication service;
  * `cmd/entrypoints/serve.go` — the gRPC interceptor chain, HTTP route
    registration, and the gRPC/HTTP protocol demultiplexer;
  * the workflow-engine `PrepareFlyteWorkflow` transformation.

External collaborators (secret manager, cookie-manager constructor, OIDC
discovery, `url.Parse`) are injected as explicit fallible functions, mirroring
how the Go code receives them as interfaces or calls into libraries.  Go
strings are Lean `String`s and the handful of `strings.`/`net/url` library
primitives the code uses are reimplemented here on character lists so that
every definition is executable.
-/

namespace FlyteAdmin

/-! ### Go string primitives (`strings` package), on character lists -/

/-- Does the first list start with the second? (`strings.HasPrefix` core.) -/
def charsStartWith : List Char → List Char → Bool
  | _, [] => true
  | [], _ :: _ => false
  | a :: as, b :: bs => a == b && charsStartWith as bs

/-- `strings.HasPrefix s pre`. -/
def strHasPre (s pre : String) : Bool :=
  charsStartWith s.toList pre.toList

/-- Does the list contain the second list as a contiguous run? -/
def charsContain : List Char → List Char → Bool
  | l, sub =>
    if charsStartWith l sub then true
    else match l with
      | [] => false
      | _ :: rest => charsContain rest sub

/-- `strings.Contains s substr`. -/
def strContains (s substr : String) : Bool :=
  charsContain s.toList substr.toList

/-- Does the first list end with the second? -/
def charsEndWith (l suf : List Char) : Bool :=
  charsStartWith l.reverse suf.reverse

/-- `strings.TrimSuffix s suffix`: drop one trailing occurrence of
`suffix` from `s` when present, otherwise return `s` unchanged. -/
def strTrimSuffix (s suffix : String) : String :=
  if charsEndWith s.toList suffix.toList then s.dropRight suffix.length else s

/-! ### `net/url` model

The URLs this subsystem manipulates carry only a scheme, a host and a path
(no query, fragment, user info or opaque part), so the embedding models
`url.URL` by those three fields.  `resolveReference` follows RFC 3986 /
Go `URL.ResolveReference` restricted to such URLs, and `toString` follows
`URL.String`.  A nil `*url.URL` is represented by `Option URL`. -/

structure URL where
  scheme : String
  host : String
  path : String
deriving DecidableEq

/-- Go `u.ResolveReference(ref)` for query/fragment-free URLs. -/
def URL.resolveReference (u ref : URL) : URL :=
  if ref.scheme ≠ "" then ref
  else if ref.host ≠ "" then { scheme := u.scheme, host := ref.host, path := ref.path }
  else { scheme := u.scheme, host := u.host, path := ref.path }

/-- Go `u.String()` for query/fragment-free URLs. -/
def URL.render (u : URL) : String :=
  (if u.scheme ≠ "" then u.scheme ++ ":" else "") ++
    (if u.host ≠ "" then "//" ++ u.host else "") ++ u.path

/-- `config.MustParseURL("/callback")`. -/
def callbackRelativeUrl : URL := { scheme := "", host := "", path := "/callback" }

/-- `config.MustParseURL("/")`. -/
def rootRelativeUrl : URL := { scheme := "", host := "", path := "/" }

/-! ### Errors (`flytestdlib/errors`) -/

/-- `AUTH_CONTEXT_SETUP_FAILED`. -/
def ErrauthCtx : String := "AUTH_CONTEXT_SETUP_FAILED"

/-- `CONFIG_OPTION_FILE_READ_FAILED`. -/
def ErrConfigFileRead : String := "CONFIG_OPTION_FILE_READ_FAILED"

/-- A coded error value, as produced by `errors.Wrapf(code, cause, msg)`. -/
structure ErrorVal where
  code : String
  msg : String
deriving DecidableEq

/-- `errors.Wrapf(code, cause, msg)`: tag `cause` with `code`, prefixing the
message. -/
def wrapf (code : String) (cause : ErrorVal) (msg : String) : ErrorVal :=
  { code := code, msg := msg ++ ": " ++ cause.msg }

/-- A plain (uncoded) error, for injected collaborators' failures. -/
def plainErr (msg : String) : ErrorVal := { code := "", msg := msg }

/-! ### `golang.org/x/oauth2` configuration objects -/

structure Endpoint where
  authURL : String
  tokenURL : String
deriving DecidableEq

/-- `oauth2.Config` (the fields this repository uses). -/
structure OAuth2Config where
  RedirectURL : String
  ClientID : String
  ClientSecret : String
  Scopes : List String
  Endpoint : Endpoint
deriving DecidableEq

def OAuth2Config.zero : OAuth2Config :=
  { RedirectURL := "", ClientID := "", ClientSecret := "",
    Scopes := [], Endpoint := { authURL := "", tokenURL := "" } }

/-! ### Abstract collaborator objects -/

/-- An inbound gRPC call context (`context.Context`); opaque to this layer. -/
structure GrpcCtx where
  id : Nat
deriving DecidableEq

/-- The cookie manager produced by `NewCookieManager` (internals out of
scope here; constructed from the two decoded keys). -/
structure CookieManager where
  hashKey : String
  blockKey : String
deriving DecidableEq

/-- `*oidc.Provider`: the result of OIDC discovery, exposing the provider's
OAuth2 endpoints via `provider.Endpoint()`. -/
structure OidcProvider where
  issuer : String
  endpoint : Endpoint
deriving DecidableEq

structure OAuth2Provider where
  tag : Nat
deriving DecidableEq

structure OAuth2ResourceServer where
  tag : Nat
deriving DecidableEq

structure OAuth2MetadataProvider where
  tag : Nat
deriving DecidableEq

structure OIdCUserInfoProvider where
  tag : Nat
deriving DecidableEq

/-- `*http.Client{Timeout: IdpConnectionTimeout}`. -/
structure HTTPClient where
  timeoutSeconds : Nat
deriving DecidableEq

/-- `IdpConnectionTimeout = 10 * time.Second`, in seconds. -/
def IdpConnectionTimeoutSeconds : Nat := 10

/-! ### Configuration (`auth/config`), as used by `auth_context.go` -/

structure OpenIDOptions where
  BaseURL : URL
  ClientID : String
  ClientSecretName : String
  DeprecatedClientSecretFile : String
  Scopes : List String
deriving DecidableEq

structure UserAuthConfig where
  CookieHashKeySecretName : String
  CookieBlockKeySecretName : String
  OpenID : OpenIDOptions
deriving DecidableEq

structure AuthConfig where
  UserAuth : UserAuthConfig
  HTTPPublicUri : URL
deriving DecidableEq

/-! ### Anonymous-method policy and the auth service wrapper -/

/-- `anonymousMethodNames = sets.NewString(...)`: the fixed anonymous-method
set; membership is exact string match. -/
def anonymousMethodNames : List String :=
  ["/flyteidl.service.AuthService/OAuth2Metadata",
   "/flyteidl.service.AuthService/FlyteClient"]

/-- `authServiceWrapper`: the injected metadata / user-info providers plus
the configured authentication interceptor (`grpcauth.AuthFunc`). -/
structure AuthServiceWrapper where
  metadataProvider : OAuth2MetadataProvider
  userInfoProvider : OIdCUserInfoProvider
  authInterceptor : GrpcCtx → GrpcCtx × Option ErrorVal

/-- `authServiceWrapper.AuthFuncOverride`: anonymous methods pass through
with the context unchanged; everything else is delegated to the configured
authentication interceptor. -/
def AuthServiceWrapper.AuthFuncOverride (s : AuthServiceWrapper) (ctx : GrpcCtx)
    (fullMethodName : String) : GrpcCtx × Option ErrorVal :=
  if anonymousMethodNames.contains fullMethodName then (ctx, none)
  else s.authInterceptor ctx

/-! ### The authentication `Context`

Go pointer fields are modelled by their pointee values (`nil` by the zero
value), except the `AuthServiceServer` interface field, whose wrapper holds a
function and is therefore an `Option`. -/

structure Context where
  oauth2Client : OAuth2Config
  cookieManager : CookieManager
  oidcProvider : OidcProvider
  options : AuthConfig
  oauth2Provider : OAuth2Provider
  oauth2ResourceServer : OAuth2ResourceServer
  AuthServiceImpl : Option AuthServiceWrapper
  userInfoURL : URL
  oauth2MetadataURL : URL
  oidcMetadataURL : URL
  httpClient : HTTPClient

/-- The zero-value `Context{}` returned on every construction failure. -/
def Context.zero : Context :=
  { oauth2Client := OAuth2Config.zero
    cookieManager := { hashKey := "", blockKey := "" }
    oidcProvider := { issuer := "", endpoint := { authURL := "", tokenURL := "" } }
    options := { UserAuth :=
                  { CookieHashKeySecretName := "", CookieBlockKeySecretName := ""
                    OpenID := { BaseURL := { scheme := "", host := "", path := "" }
                                ClientID := "", ClientSecretName := ""
                                DeprecatedClientSecretFile := "", Scopes := [] } }
                 HTTPPublicUri := { scheme := "", host := "", path := "" } }
    oauth2Provider := { tag := 0 }
    oauth2ResourceServer := { tag := 0 }
    AuthServiceImpl := none
    userInfoURL := { scheme := "", host := "", path := "" }
    oauth2MetadataURL := { scheme := "", host := "", path := "" }
    oidcMetadataURL := { scheme := "", host := "", path := "" }
    httpClient := { timeoutSeconds := 0 } }

/-- `Context.OAuth2ClientConfig(requestUrl)`: return the default descriptor
when there is no request URL or the default redirect URL already starts with
the request's scheme+host root; otherwise fork a descriptor whose redirect
URL is the request URL resolved against `/callback`. -/
def Context.OAuth2ClientConfig (c : Context) (requestUrl : Option URL) : OAuth2Config :=
  match requestUrl with
  | none => c.oauth2Client
  | some u =>
    if strHasPre c.oauth2Client.RedirectURL ((u.resolveReference rootRelativeUrl).render) then
      c.oauth2Client
    else
      { RedirectURL := (u.resolveReference callbackRelativeUrl).render
        ClientID := c.oauth2Client.ClientID
        ClientSecret := c.oauth2Client.ClientSecret
        Scopes := c.oauth2Client.Scopes
        Endpoint := c.oauth2Client.Endpoint }

/-! ### Construction of the authentication context -/

/-- Modelled from the spec: the static OAuth2 discovery path exposed to
clients (`OAuth2MetadataEndpoint`), one of the "two static metadata endpoint
paths (`/oauth2/metadata` and the OIDC discovery path)"; its definition lives
outside the sources shown. -/
def OAuth2MetadataEndpoint : String := "/oauth2/metadata"

/-- Modelled from the spec: the static OIDC discovery path exposed to clients
(`OIdCMetadataEndpoint`); its definition lives outside the sources shown. -/
def OIdCMetadataEndpoint : String := "/.well-known/openid-configuration"

/-- The fallible collaborators `NewAuthenticationContext` calls into:
the secret manager (`sm.Get`), `ioutil.ReadFile`, the cookie-manager
constructor `NewCookieManager`, OIDC discovery `oidc.NewProvider`,
`url.Parse`, and `GetAuthenticationInterceptor` (defined in a source file
not shown; only its resulting decision function matters here). -/
structure SetupDeps where
  smGet : String → Except ErrorVal String
  readFile : String → Except ErrorVal String
  newCookieManager : String → String → Except ErrorVal CookieManager
  newOidcProvider : String → Except ErrorVal OidcProvider
  parseURL : String → Except ErrorVal URL
  getAuthenticationInterceptor : Context → GrpcCtx → GrpcCtx × Option ErrorVal

/-- `GetOAuth2ClientConfig`: resolve the client secret (from the local file
named by `options.ClientSecretName` when the deprecated client-secret-file
option is set, else from the secret manager under that same name), trim one
trailing newline, and build the `oauth2.Config` whose redirect URL is the
public HTTP base URL resolved against `/callback`. -/
def GetOAuth2ClientConfig (deps : SetupDeps) (options : OpenIDOptions)
    (publicHTTPBaseUrl : URL) (providerEndpoints : Endpoint) :
    Except ErrorVal OAuth2Config := do
  let secret ←
    if options.DeprecatedClientSecretFile.length > 0 then
      deps.readFile options.ClientSecretName
    else
      deps.smGet options.ClientSecretName
  let secret := strTrimSuffix secret "\n"
  pure { RedirectURL := (publicHTTPBaseUrl.resolveReference callbackRelativeUrl).render
         ClientID := options.ClientID
         ClientSecret := secret
         Scopes := options.Scopes
         Endpoint := providerEndpoints }

/-- `NewAuthenticationContext`: the sequential construction from
`auth_context.go`, returning (as in Go) a `Context` together with an optional
error; every failure path returns `(Context.zero, some error)` with the
error code the source wraps at that step. -/
def NewAuthenticationContext (deps : SetupDeps)
    (oauth2Provider : OAuth2Provider) (oauth2ResourceServer : OAuth2ResourceServer)
    (metadataProvider : OAuth2MetadataProvider) (infoProvider : OIdCUserInfoProvider)
    (options : AuthConfig) : Context × Option ErrorVal :=
  match deps.smGet options.UserAuth.CookieHashKeySecretName with
  | .error e => (Context.zero, some (wrapf ErrConfigFileRead e "Could not read hash key file"))
  | .ok hashKeyBase64 =>
  match deps.smGet options.UserAuth.CookieBlockKeySecretName with
  | .error e => (Context.zero, some (wrapf ErrConfigFileRead e "Could not read hash key file"))
  | .ok blockKeyBase64 =>
  match deps.newCookieManager hashKeyBase64 blockKeyBase64 with
  | .error e => (Context.zero, some (wrapf ErrauthCtx e "Error creating cookie manager"))
  | .ok cookieManager =>
  let httpClient : HTTPClient := { timeoutSeconds := IdpConnectionTimeoutSeconds }
  match deps.newOidcProvider options.UserAuth.OpenID.BaseURL.render with
  | .error e => (Context.zero, some (wrapf ErrauthCtx e "Error creating oidc provider"))
  | .ok provider =>
  match GetOAuth2ClientConfig deps options.UserAuth.OpenID options.HTTPPublicUri provider.endpoint with
  | .error e => (Context.zero, some (wrapf ErrauthCtx e "Error creating OAuth2 library configuration"))
  | .ok oauth2Config =>
  match deps.parseURL OAuth2MetadataEndpoint with
  | .error e => (Context.zero, some (wrapf ErrauthCtx e "Error parsing metadata URL"))
  | .ok oauth2MetadataURL =>
  match deps.parseURL OIdCMetadataEndpoint with
  | .error e => (Context.zero, some (wrapf ErrauthCtx e "Error parsing metadata URL"))
  | .ok oidcMetadataURL =>
  let authCtx : Context :=
    { options := options
      oidcMetadataURL := oidcMetadataURL
      oauth2MetadataURL := oauth2MetadataURL
      oauth2Client := oauth2Config
      oidcProvider := provider
      httpClient := httpClient
      cookieManager := cookieManager
      oauth2Provider := oauth2Provider
      oauth2ResourceServer := oauth2ResourceServer
      AuthServiceImpl := none
      userInfoURL := Context.zero.userInfoURL }
  let authSvc : AuthServiceWrapper :=
    { metadataProvider := metadataProvider
      userInfoProvider := infoProvider
      authInterceptor := deps.getAuthenticationInterceptor authCtx }
  ({ authCtx with AuthServiceImpl := some authSvc }, none)

/-! ### `cmd/entrypoints/serve.go`: protocol demultiplexer -/

/-- The inbound request facts `grpcHandlerFunc` inspects: `r.ProtoMajor` and
`r.Header.Get("Content-Type")`. -/
structure HTTPRequest where
  protoMajor : Nat
  contentType : String
deriving DecidableEq

inductive RouteTarget where
  | grpcServer
  | otherHandler
deriving DecidableEq

/-- `grpcHandlerFunc`: route to the gRPC server when `r.ProtoMajor == 2` and
the Content-Type header contains `application/grpc`; otherwise to the HTTP
handler. -/
def grpcHandlerFunc (r : HTTPRequest) : RouteTarget :=
  if r.protoMajor == 2 && strContains r.contentType "application/grpc" then
    RouteTarget.grpcServer
  else
    RouteTarget.otherHandler

/-! ### `serve.go`: the unary interceptor chain

A unary call is modelled as producing a chronological list of observable
events plus a result (`none` = success).  Each library interceptor is then a
handler transformer with its documented behaviour:
`grpc_prometheus.UnaryServerInterceptor` observes the completed call's
success or failure, `grpcauth.UnaryServerInterceptor(authFunc)` consults
`authFunc` and rejects without invoking the wrapped handler on failure, and
`auth.AuthenticationLoggingInterceptor` logs and delegates.
`grpc_middleware.ChainUnaryServer` composes a list of interceptors with the
first element outermost. -/

inductive CallEvent where
  | metricsObserved (success : Bool)
  | authAllowed
  | authRejected
  | logObserved
  | businessEvent (tag : Nat)
deriving DecidableEq

def UnaryHandler : Type := GrpcCtx → List CallEvent × Option ErrorVal

def UnaryInterceptor : Type := UnaryHandler → UnaryHandler

/-- `grpc_prometheus.UnaryServerInterceptor`: run the wrapped handler, then
record whether the call succeeded or failed. -/
def prometheusUnaryServerInterceptor : UnaryInterceptor := fun h ctx =>
  let r := h ctx
  (r.1 ++ [CallEvent.metricsObserved r.2.isNone], r.2)

/-- `grpcauth.UnaryServerInterceptor(authFunc)`: on auth success continue
with the (possibly augmented) context; on auth failure return the error
without invoking the wrapped handler. -/
def grpcauthUnaryServerInterceptor (authFunc : GrpcCtx → GrpcCtx × Option ErrorVal) :
    UnaryInterceptor := fun h ctx =>
  match authFunc ctx with
  | (newCtx, none) =>
    let r := h newCtx
    (CallEvent.authAllowed :: r.1, r.2)
  | (_, some e) => ([CallEvent.authRejected], some e)

/-- `auth.AuthenticationLoggingInterceptor`: log the call's metadata, then
delegate to the wrapped handler unchanged. -/
def authenticationLoggingInterceptor : UnaryInterceptor := fun h ctx =>
  let r := h ctx
  (CallEvent.logObserved :: r.1, r.2)

/-- `grpc_middleware.ChainUnaryServer`: the first interceptor in the list is
the outermost one. -/
def chainUnaryServer (interceptors : List UnaryInterceptor) (handler : UnaryHandler) :
    UnaryHandler :=
  interceptors.foldr (fun i acc => i acc) handler

/-- The unary interceptor chain `newGRPCServer` installs, as a function of
`cfg.Security.UseAuth` (the auth decision function stands in for
`auth.GetAuthenticationInterceptor(authContext)`). -/
def newGRPCServerChain (useAuth : Bool)
    (authFunc : GrpcCtx → GrpcCtx × Option ErrorVal) : List UnaryInterceptor :=
  if useAuth then
    [prometheusUnaryServerInterceptor,
     grpcauthUnaryServerInterceptor authFunc,
     authenticationLoggingInterceptor]
  else
    [prometheusUnaryServerInterceptor]

/-- Serving one unary call through the configured chain. -/
def serveUnaryCall (useAuth : Bool) (authFunc : GrpcCtx → GrpcCtx × Option ErrorVal)
    (handler : UnaryHandler) (ctx : GrpcCtx) : List CallEvent × Option ErrorVal :=
  chainUnaryServer (newGRPCServerChain useAuth authFunc) handler ctx

/-! ### `serve.go`: HTTP route registration -/

/-- `w.WriteHeader(http.StatusOK)` in the `/healthcheck` handler. -/
def healthcheckHandler (_ : HTTPRequest) : Nat := 200

/-- `newHTTPServer`: the mux patterns registered, in registration order, as a
function of `cfg.Security.UseAuth`; gateway registration failure
(`RegisterAdminServiceHandlerFromEndpoint`) aborts with a wrapped error and
no mux.  `/` is bound to the gRPC-gateway mux. -/
def newHTTPServer (useAuth : Bool) (registerAdminServiceResult : Option ErrorVal) :
    Except ErrorVal (List String) :=
  let routes := ["/healthcheck", "/api/v1/openapi"]
  let routes := routes ++ (if useAuth then ["/login_page", "/login", "/callback"] else [])
  match registerAdminServiceResult with
  | some e => .error { code := e.code, msg := "error registering admin service: " ++ e.msg }
  | none => .ok (routes ++ ["/"])

/-! ### Workflow engine: `PrepareFlyteWorkflow`

Go `map[string]V` values are modelled as association lists (`none` for a nil
map), `time.Time` as an integer timestamp, `resource.Quantity` as an integer
value, and protobuf pointer fields as `Option`s. -/

/-- `grpc/codes.Internal`. -/
def codesInternal : Nat := 13

/-- `errors.NewFlyteAdminErrorf(code, msg)`. -/
structure FlyteAdminError where
  code : Nat
  msg : String
deriving DecidableEq

/-- `core.WorkflowExecutionIdentifier`. -/
structure WorkflowExecutionIdentifier where
  project : String
  domain : String
  name : String
deriving DecidableEq

/-- `admin.AuthRole`. -/
structure AuthRole where
  assumableIamRole : String
  kubernetesServiceAccount : String
deriving DecidableEq

/-- `admin.PluginOverride`. -/
structure PluginOverride where
  taskType : String
  pluginId : List String
  missingPluginBehavior : Int
deriving DecidableEq

/-- `v1alpha1.TaskPluginOverride`. -/
structure TaskPluginOverride where
  pluginIDs : List String
  missingPluginBehavior : Int
deriving DecidableEq

/-- `admin.WorkflowExecutionConfig` (the field used here). -/
structure WorkflowExecutionConfig where
  maxParallelism : Int
deriving DecidableEq

/-- `admin.RawOutputDataConfig`. -/
structure AdminRawOutputDataConfig where
  outputLocationPrefix : String
deriving DecidableEq

/-- `resource.Quantity`, abstracted to its numeric value. -/
structure Quantity where
  val : Int
deriving DecidableEq

/-- `Quantity.IsZero()`. -/
def Quantity.isZeroQ (q : Quantity) : Bool := q.val == 0

def Quantity.zeroQ : Quantity := { val := 0 }

/-- `runtime.TaskResourceSet`. -/
structure TaskResourceSet where
  cpu : Quantity
  gpu : Quantity
  memory : Quantity
  storage : Quantity
  ephemeralStorage : Quantity
deriving DecidableEq

/-- `executions.TaskResources`. -/
structure TaskResources where
  defaults : TaskResourceSet
  limits : TaskResourceSet
deriving DecidableEq

/-- `v1alpha1.TaskResourceSpec`. -/
structure TaskResourceSpec where
  cpu : Quantity
  memory : Quantity
  ephemeralStorage : Quantity
  storage : Quantity
  gpu : Quantity
deriving DecidableEq

def TaskResourceSpec.zeroSpec : TaskResourceSpec :=
  { cpu := Quantity.zeroQ, memory := Quantity.zeroQ, ephemeralStorage := Quantity.zeroQ
    storage := Quantity.zeroQ, gpu := Quantity.zeroQ }

/-- `v1alpha1.TaskResources`. -/
structure V1TaskResources where
  requests : TaskResourceSpec
  limits : TaskResourceSpec
deriving DecidableEq

def V1TaskResources.zeroTR : V1TaskResources :=
  { requests := TaskResourceSpec.zeroSpec, limits := TaskResourceSpec.zeroSpec }

/-- `v1alpha1.ExecutionConfig`. -/
structure V1ExecutionConfig where
  taskPluginImpls : List (String × TaskPluginOverride)
  maxParallelism : Nat
  recoveryExecution : Option WorkflowExecutionIdentifier
  taskResources : V1TaskResources
deriving DecidableEq

/-- `v1alpha1.WorkflowMeta`. -/
structure WorkflowMeta where
  eventVersion : Int
deriving DecidableEq

/-- An association-list map assignment `m[k] = v`. -/
def mapSet {V : Type} (m : List (String × V)) (k : String) (v : V) :
    List (String × V) :=
  if m.any (fun kv => kv.1 == k) then
    m.map (fun kv => if kv.1 == k then (k, v) else kv)
  else
    m ++ [(k, v)]

/-- A Go `map[string]string`, `none` when nil. -/
abbrev StrMap : Type := List (String × String)

/-- `v1alpha1.FlyteWorkflow` (the fields `PrepareFlyteWorkflow` touches). -/
structure FlyteWorkflow where
  executionID : Option WorkflowExecutionIdentifier
  acceptedAt : Option Int
  serviceAccountName : String
  labels : Option StrMap
  annotations : Option StrMap
  workflowMeta : Option WorkflowMeta
  executionConfig : V1ExecutionConfig
  rawOutputDataConfig : Option AdminRawOutputDataConfig
deriving DecidableEq

/-- `executions.PrepareFlyteWorkflowInput`. -/
structure PrepareFlyteWorkflowInput where
  executionID : Option WorkflowExecutionIdentifier
  acceptedAt : Int
  labels : Option StrMap
  annotations : Option StrMap
  taskPluginOverrides : List PluginOverride
  executionConfig : Option WorkflowExecutionConfig
  auth : Option AuthRole
  recoveryExecution : Option WorkflowExecutionIdentifier
  taskResources : Option TaskResources
  eventVersion : Int
  roleNameKey : String
  rawOutputDataConfig : Option AdminRawOutputDataConfig
deriving DecidableEq

/-- `addMapValues`: write each override into the default map (allocating an
empty map when the defaults are nil); a nil override map returns the defaults
untouched. -/
def addMapValues (overrides defaultValues : Option StrMap) : StrMap :=
  let dv : StrMap := match defaultValues with | none => [] | some d => d
  match overrides with
  | none => dv
  | some ov => ov.foldl (fun acc kv => mapSet acc kv.1 kv.2) dv

/-- `addPermissions`: apply the launch plan's `AuthRole` to the workflow
(IAM role into the role-name annotation, Kubernetes service account into
`ServiceAccountName`). -/
def addPermissions (auth : Option AuthRole) (roleNameKey : String)
    (flyteWf : FlyteWorkflow) : FlyteWorkflow :=
  match auth with
  | none => flyteWf
  | some a =>
    let flyteWf :=
      if a.assumableIamRole.length > 0 then
        let annotations : StrMap := match flyteWf.annotations with | none => [] | some m => m
        { flyteWf with annotations := some (mapSet annotations roleNameKey a.assumableIamRole) }
      else flyteWf
    if a.kubernetesServiceAccount.length > 0 then
      { flyteWf with serviceAccountName := a.kubernetesServiceAccount }
    else flyteWf

/-- Go's `uint32(x)` conversion of an `int32` value. -/
def uint32Of (x : Int) : Nat := (x % 4294967296).toNat

/-- The `requests`/`limits` build-up inside `addExecutionOverrides`: copy
each quantity of the set that is not zero onto a zero spec. -/
def specOfTaskResourceSet (s : TaskResourceSet) : TaskResourceSpec :=
  let r := TaskResourceSpec.zeroSpec
  let r := if !s.cpu.isZeroQ then { r with cpu := s.cpu } else r
  let r := if !s.memory.isZeroQ then { r with memory := s.memory } else r
  let r := if !s.ephemeralStorage.isZeroQ then { r with ephemeralStorage := s.ephemeralStorage } else r
  let r := if !s.storage.isZeroQ then { r with storage := s.storage } else r
  if !s.gpu.isZeroQ then { r with gpu := s.gpu } else r

/-- `addExecutionOverrides`: build the `v1alpha1.ExecutionConfig` from the
plugin overrides, execution config, recovery execution and task resources,
and store it on the workflow. -/
def addExecutionOverrides (taskPluginOverrides : List PluginOverride)
    (workflowExecutionConfig : Option WorkflowExecutionConfig)
    (recoveryExecution : Option WorkflowExecutionIdentifier)
    (taskResources : Option TaskResources) (flyteWf : FlyteWorkflow) : FlyteWorkflow :=
  let executionConfig : V1ExecutionConfig :=
    { taskPluginImpls := []
      maxParallelism := 0
      recoveryExecution := recoveryExecution
      taskResources := V1TaskResources.zeroTR }
  let executionConfig :=
    { executionConfig with
        taskPluginImpls := taskPluginOverrides.foldl
          (fun acc override => mapSet acc override.taskType
            { pluginIDs := override.pluginId
              missingPluginBehavior := override.missingPluginBehavior })
          executionConfig.taskPluginImpls }
  let executionConfig :=
    match workflowExecutionConfig with
    | none => executionConfig
    | some wec => { executionConfig with maxParallelism := uint32Of wec.maxParallelism }
  let executionConfig :=
    match taskResources with
    | none => executionConfig
    | some tr =>
      { executionConfig with
          taskResources :=
            { requests := specOfTaskResourceSet tr.defaults
              limits := specOfTaskResourceSet tr.limits } }
  { flyteWf with executionConfig := executionConfig }

/-- `PrepareFlyteWorkflow`: validate the execution ID and target workflow,
then stamp the workflow with the execution ID, accepted-at timestamp,
permissions, labels/annotations, event version, execution overrides and raw
output data config.  The workflow pointer is modelled by an `Option` in and
a (possibly updated) `Option` out, paired with the Go error result. -/
def PrepareFlyteWorkflow (input : PrepareFlyteWorkflowInput)
    (flyteWorkflow : Option FlyteWorkflow) :
    Option FlyteWorkflow × Option FlyteAdminError :=
  match input.executionID with
  | none => (flyteWorkflow, some { code := codesInternal, msg := "invalid execution id" })
  | some _ =>
  match flyteWorkflow with
  | none => (none, some { code := codesInternal, msg := "missing Flyte Workflow " })
  | some wf =>
  let wf := { wf with executionID := input.executionID }
  let wf := { wf with acceptedAt := some input.acceptedAt }
  let wf := addPermissions input.auth input.roleNameKey wf
  let wf := { wf with labels := some (addMapValues input.labels wf.labels) }
  let wf := { wf with annotations := some (addMapValues input.annotations wf.annotations) }
  let wf :=
    match wf.workflowMeta with
    | none => { wf with workflowMeta := some { eventVersion := input.eventVersion } }
    | some meta => { wf with workflowMeta := some { meta with eventVersion := input.eventVersion } }
  let wf := addExecutionOverrides input.taskPluginOverrides input.executionConfig
    input.recoveryExecution input.taskResources wf
  let wf :=
    match input.rawOutputDataConfig with
    | none => wf
    | some cfg => { wf with rawOutputDataConfig := some cfg }
  (some wf, none)

/-! ## Claims -/

/-- C1: `AuthFuncOverride` returns the input context unchanged and no error
exactly for the two anonymous method names (by exact string match), and for
every other method name delegates the decision to the configured
authentication interceptor, with no fallback to anonymous access. -/
theorem authFuncOverride_anonymous_policy (s : AuthServiceWrapper) (ctx : GrpcCtx)
    (fullMethodName : String) :
    s.AuthFuncOverride ctx fullMethodName =
      if fullMethodName = "/flyteidl.service.AuthService/OAuth2Metadata" ∨
          fullMethodName = "/flyteidl.service.AuthService/FlyteClient" then
        (ctx, none)
      else
        s.authInterceptor ctx := by
  simp only [AuthServiceWrapper.AuthFuncOverride, anonymousMethodNames]
  rcases eq_or_ne fullMethodName "/flyteidl.service.AuthService/OAuth2Metadata" with h1 | h1
  · subst h1; simp
  · rcases eq_or_ne fullMethodName "/flyteidl.service.AuthService/FlyteClient" with h2 | h2
    · subst h2; simp
    · simp [h1, h2]

/-- C2: for a non-nil request URL, `OAuth2ClientConfig` returns the default
descriptor unmodified when the default redirect URL has the request's
scheme+host root (the request resolved against `/`) as a prefix, and
otherwise a descriptor whose redirect URL is the request resolved against
`/callback` with all remaining fields equal to the default's. -/
theorem oauth2ClientConfig_per_host (c : Context) (u : URL) :
    (strHasPre c.oauth2Client.RedirectURL ((u.resolveReference rootRelativeUrl).render) = true →
      c.OAuth2ClientConfig (some u) = c.oauth2Client) ∧
    (strHasPre c.oauth2Client.RedirectURL ((u.resolveReference rootRelativeUrl).render) = false →
      c.OAuth2ClientConfig (some u) =
        { RedirectURL := (u.resolveReference callbackRelativeUrl).render
          ClientID := c.oauth2Client.ClientID
          ClientSecret := c.oauth2Client.ClientSecret
          Scopes := c.oauth2Client.Scopes
          Endpoint := c.oauth2Client.Endpoint }) := by
  constructor <;> intro h <;> simp [Context.OAuth2ClientConfig, h]

/-- The context of the spec's per-host example: default redirect URL
`https://a.example/callback`. -/
def perHostExampleCtx : Context :=
  { Context.zero with
      oauth2Client := { OAuth2Config.zero with RedirectURL := "https://a.example/callback" } }

def requestUrlHostA : URL := { scheme := "https", host := "a.example", path := "" }

def requestUrlHostB : URL := { scheme := "https", host := "b.example", path := "" }

/-- Witness for C2: with default redirect `https://a.example/callback`, a
request from `https://b.example` forks a descriptor redirecting to
`https://b.example/callback`, while a request from `https://a.example` gets
the default descriptor back. -/
theorem oauth2ClientConfig_per_host_witness :
    (perHostExampleCtx.OAuth2ClientConfig (some requestUrlHostB)).RedirectURL =
        "https://b.example/callback" ∧
    perHostExampleCtx.OAuth2ClientConfig (some requestUrlHostA) =
        perHostExampleCtx.oauth2Client := by
  constructor
  · have h := (oauth2ClientConfig_per_host perHostExampleCtx requestUrlHostB).2 (by decide)
    rw [h]
    decide
  · exact (oauth2ClientConfig_per_host perHostExampleCtx requestUrlHostA).1 (by decide)

/-- C9: with a nil request URL, `OAuth2ClientConfig` returns the context's
default OAuth2 descriptor itself. -/
theorem oauth2ClientConfig_nil_request (c : Context) :
    c.OAuth2ClientConfig none = c.oauth2Client := rfl

/-- C3: `NewAuthenticationContext` either succeeds (no error) or fails
atomically, returning the zero-value `Context` together with an error; no
partially-initialized context is ever produced. -/
theorem newAuthenticationContext_atomic (deps : SetupDeps)
    (p : OAuth2Provider) (rs : OAuth2ResourceServer) (mp : OAuth2MetadataProvider)
    (ip : OIdCUserInfoProvider) (options : AuthConfig) :
    (NewAuthenticationContext deps p rs mp ip options).2 = none ∨
      ∃ e, NewAuthenticationContext deps p rs mp ip options = (Context.zero, some e) := by
  simp only [NewAuthenticationContext]
  cases deps.smGet options.UserAuth.CookieHashKeySecretName with
  | error e => exact Or.inr ⟨_, rfl⟩
  | ok hashKey =>
  dsimp only
  cases deps.smGet options.UserAuth.CookieBlockKeySecretName with
  | error e => exact Or.inr ⟨_, rfl⟩
  | ok blockKey =>
  dsimp only
  cases deps.newCookieManager hashKey blockKey with
  | error e => exact Or.inr ⟨_, rfl⟩
  | ok cm =>
  dsimp only
  cases deps.newOidcProvider options.UserAuth.OpenID.BaseURL.render with
  | error e => exact Or.inr ⟨_, rfl⟩
  | ok provider =>
  dsimp only
  cases GetOAuth2ClientConfig deps options.UserAuth.OpenID options.HTTPPublicUri provider.endpoint with
  | error e => exact Or.inr ⟨_, rfl⟩
  | ok cfg =>
  dsimp only
  cases deps.parseURL OAuth2MetadataEndpoint with
  | error e => exact Or.inr ⟨_, rfl⟩
  | ok u1 =>
  dsimp only
  cases deps.parseURL OIdCMetadataEndpoint with
  | error e => exact Or.inr ⟨_, rfl⟩
  | ok u2 => exact Or.inl rfl

/-- C4: each construction failure carries the error code the source wraps at
that step — `CONFIG_OPTION_FILE_READ_FAILED` for either cookie-key secret
fetch, `AUTH_CONTEXT_SETUP_FAILED` for cookie-manager construction, OIDC
discovery, OAuth2 client-config construction, and metadata-URL parsing. -/
theorem newAuthenticationContext_error_codes (deps : SetupDeps)
    (p : OAuth2Provider) (rs : OAuth2ResourceServer) (mp : OAuth2MetadataProvider)
    (ip : OIdCUserInfoProvider) (options : AuthConfig) :
    (∀ e, deps.smGet options.UserAuth.CookieHashKeySecretName = .error e →
      ∃ e2, NewAuthenticationContext deps p rs mp ip options = (Context.zero, some e2) ∧
        e2.code = ErrConfigFileRead) ∧
    (∀ hk e, deps.smGet options.UserAuth.CookieHashKeySecretName = .ok hk →
      deps.smGet options.UserAuth.CookieBlockKeySecretName = .error e →
      ∃ e2, NewAuthenticationContext deps p rs mp ip options = (Context.zero, some e2) ∧
        e2.code = ErrConfigFileRead) ∧
    (∀ hk bk e, deps.smGet options.UserAuth.CookieHashKeySecretName = .ok hk →
      deps.smGet options.UserAuth.CookieBlockKeySecretName = .ok bk →
      deps.newCookieManager hk bk = .error e →
      ∃ e2, NewAuthenticationContext deps p rs mp ip options = (Context.zero, some e2) ∧
        e2.code = ErrauthCtx) ∧
    (∀ hk bk cm e, deps.smGet options.UserAuth.CookieHashKeySecretName = .ok hk →
      deps.smGet options.UserAuth.CookieBlockKeySecretName = .ok bk →
      deps.newCookieManager hk bk = .ok cm →
      deps.newOidcProvider options.UserAuth.OpenID.BaseURL.render = .error e →
      ∃ e2, NewAuthenticationContext deps p rs mp ip options = (Context.zero, some e2) ∧
        e2.code = ErrauthCtx) ∧
    (∀ hk bk cm prov e, deps.smGet options.UserAuth.CookieHashKeySecretName = .ok hk →
      deps.smGet options.UserAuth.CookieBlockKeySecretName = .ok bk →
      deps.newCookieManager hk bk = .ok cm →
      deps.newOidcProvider options.UserAuth.OpenID.BaseURL.render = .ok prov →
      GetOAuth2ClientConfig deps options.UserAuth.OpenID options.HTTPPublicUri prov.endpoint = .error e →
      ∃ e2, NewAuthenticationContext deps p rs mp ip options = (Context.zero, some e2) ∧
        e2.code = ErrauthCtx) ∧
    (∀ hk bk cm prov cfg e, deps.smGet options.UserAuth.CookieHashKeySecretName = .ok hk →
      deps.smGet options.UserAuth.CookieBlockKeySecretName = .ok bk →
      deps.newCookieManager hk bk = .ok cm →
      deps.newOidcProvider options.UserAuth.OpenID.BaseURL.render = .ok prov →
      GetOAuth2ClientConfig deps options.UserAuth.OpenID options.HTTPPublicUri prov.endpoint = .ok cfg →
      deps.parseURL OAuth2MetadataEndpoint = .error e →
      ∃ e2, NewAuthenticationContext deps p rs mp ip options = (Context.zero, some e2) ∧
        e2.code = ErrauthCtx) ∧
    (∀ hk bk cm prov cfg u1 e, deps.smGet options.UserAuth.CookieHashKeySecretName = .ok hk →
      deps.smGet options.UserAuth.CookieBlockKeySecretName = .ok bk →
      deps.newCookieManager hk bk = .ok cm →
      deps.newOidcProvider options.UserAuth.OpenID.BaseURL.render = .ok prov →
      GetOAuth2ClientConfig deps options.UserAuth.OpenID options.HTTPPublicUri prov.endpoint = .ok cfg →
      deps.parseURL OAuth2MetadataEndpoint = .ok u1 →
      deps.parseURL OIdCMetadataEndpoint = .error e →
      ∃ e2, NewAuthenticationContext deps p rs mp ip options = (Context.zero, some e2) ∧
        e2.code = ErrauthCtx) := by
  refine ⟨?_, ?_, ?_, ?_, ?_, ?_, ?_⟩
  · intro e h1
    refine ⟨wrapf ErrConfigFileRead e "Could not read hash key file", ?_, rfl⟩
    simp only [NewAuthenticationContext, h1]
  · intro hk e h1 h2
    refine ⟨wrapf ErrConfigFileRead e "Could not read hash key file", ?_, rfl⟩
    simp only [NewAuthenticationContext, h1, h2]
  · intro hk bk e h1 h2 h3
    refine ⟨wrapf ErrauthCtx e "Error creating cookie manager", ?_, rfl⟩
    simp only [NewAuthenticationContext, h1, h2, h3]
  · intro hk bk cm e h1 h2 h3 h4
    refine ⟨wrapf ErrauthCtx e "Error creating oidc provider", ?_, rfl⟩
    simp only [NewAuthenticationContext, h1, h2, h3, h4]
  · intro hk bk cm prov e h1 h2 h3 h4 h5
    refine ⟨wrapf ErrauthCtx e "Error creating OAuth2 library configuration", ?_, rfl⟩
    simp only [NewAuthenticationContext, h1, h2, h3, h4, h5]
  · intro hk bk cm prov cfg e h1 h2 h3 h4 h5 h6
    refine ⟨wrapf ErrauthCtx e "Error parsing metadata URL", ?_, rfl⟩
    simp only [NewAuthenticationContext, h1, h2, h3, h4, h5, h6]
  · intro hk bk cm prov cfg u1 e h1 h2 h3 h4 h5 h6 h7
    refine ⟨wrapf ErrauthCtx e "Error parsing metadata URL", ?_, rfl⟩
    simp only [NewAuthenticationContext, h1, h2, h3, h4, h5, h6, h7]

/-- Collaborators that all succeed, for exercising the construction. -/
def depsAllOk : SetupDeps :=
  { smGet := fun name => .ok ("secret-" ++ name)
    readFile := fun path => .ok ("file-" ++ path)
    newCookieManager := fun h b => .ok { hashKey := h, blockKey := b }
    newOidcProvider := fun issuer => .ok
      { issuer := issuer, endpoint := { authURL := "", tokenURL := "" } }
    parseURL := fun s => .ok { scheme := "", host := "", path := s }
    getAuthenticationInterceptor := fun _ ctx => (ctx, none) }

/-- Collaborators whose secret manager always fails. -/
def depsFailSecret : SetupDeps :=
  { depsAllOk with smGet := fun _ => .error (plainErr "secret not found") }

/-- Collaborators whose cookie-manager constructor fails (bad key format). -/
def depsFailCookie : SetupDeps :=
  { depsAllOk with newCookieManager := fun _ _ => .error (plainErr "bad key: not base64") }

/-- A concrete configuration for exercising the construction. -/
def exampleAuthConfig : AuthConfig :=
  { UserAuth :=
      { CookieHashKeySecretName := "cookie_hash_key"
        CookieBlockKeySecretName := "cookie_block_key"
        OpenID :=
          { BaseURL := { scheme := "https", host := "idp.example", path := "" }
            ClientID := "flyteadmin"
            ClientSecretName := "oidc_client_secret"
            DeprecatedClientSecretFile := ""
            Scopes := ["openid", "profile"] } }
    HTTPPublicUri := { scheme := "https", host := "admin.example", path := "" } }

/-- Witness for C4: a failing hash-key secret fetch yields a
`CONFIG_OPTION_FILE_READ_FAILED` error with the zero context, and a failing
cookie-manager construction yields `AUTH_CONTEXT_SETUP_FAILED`. -/
theorem newAuthenticationContext_error_codes_witness :
    (∃ e2, NewAuthenticationContext depsFailSecret { tag := 0 } { tag := 0 } { tag := 0 } { tag := 0 }
        exampleAuthConfig = (Context.zero, some e2) ∧ e2.code = ErrConfigFileRead) ∧
    (∃ e2, NewAuthenticationContext depsFailCookie { tag := 0 } { tag := 0 } { tag := 0 } { tag := 0 }
        exampleAuthConfig = (Context.zero, some e2) ∧ e2.code = ErrauthCtx) := by
  constructor
  · exact (newAuthenticationContext_error_codes depsFailSecret
      { tag := 0 } { tag := 0 } { tag := 0 } { tag := 0 } exampleAuthConfig).1
      (plainErr "secret not found") rfl
  · exact (newAuthenticationContext_error_codes depsFailCookie
      { tag := 0 } { tag := 0 } { tag := 0 } { tag := 0 } exampleAuthConfig).2.2.1
      "secret-cookie_hash_key" "secret-cookie_block_key"
      (plainErr "bad key: not base64") rfl rfl rfl

/-- C5: the protocol demultiplexer routes a request to the gRPC server if
and only if its protocol major version is 2 and its Content-Type header
contains `application/grpc`; every other request goes to the HTTP handler. -/
theorem grpcHandlerFunc_routing (r : HTTPRequest) :
    (grpcHandlerFunc r = RouteTarget.grpcServer ↔
      r.protoMajor = 2 ∧ strContains r.contentType "application/grpc" = true) ∧
    (grpcHandlerFunc r = RouteTarget.otherHandler ↔
      ¬(r.protoMajor = 2 ∧ strContains r.contentType "application/grpc" = true)) := by
  have hiff : (r.protoMajor == 2 && strContains r.contentType "application/grpc") = true ↔
      (r.protoMajor = 2 ∧ strContains r.contentType "application/grpc" = true) := by
    simp [Bool.and_eq_true, beq_iff_eq]
  cases hcond : (r.protoMajor == 2 && strContains r.contentType "application/grpc") with
  | true =>
    have hp := hiff.mp hcond
    constructor <;> simp [grpcHandlerFunc, hcond, hp.1, hp.2]
  | false =>
    have hp : ¬(r.protoMajor = 2 ∧ strContains r.contentType "application/grpc" = true) := by
      intro hc
      rw [hiff.mpr hc] at hcond
      exact absurd hcond (by simp)
    constructor <;> simp [grpcHandlerFunc, hcond, hp]

/-- C7: with authentication enabled, the authentication interceptor runs
inside the prometheus metrics interceptor and outside the business handler:
a call the auth function rejects produces no handler events and is observed
by the metrics interceptor as a failure, and an allowed call runs the
handler only after the auth decision, with the metrics observation coming
last. -/
theorem authInterceptor_before_handler_and_metrics
    (authFunc : GrpcCtx → GrpcCtx × Option ErrorVal) (h : UnaryHandler) (ctx : GrpcCtx) :
    (∀ e, (authFunc ctx).2 = some e →
      serveUnaryCall true authFunc h ctx =
        ([CallEvent.authRejected, CallEvent.metricsObserved false], some e)) ∧
    ((authFunc ctx).2 = none →
      serveUnaryCall true authFunc h ctx =
        (CallEvent.authAllowed :: CallEvent.logObserved ::
            ((h (authFunc ctx).1).1 ++ [CallEvent.metricsObserved (h (authFunc ctx).1).2.isNone]),
          (h (authFunc ctx).1).2)) := by
  constructor
  · intro e he
    rcases hA : authFunc ctx with ⟨c2, r⟩
    rw [hA] at he
    simp only at he
    subst he
    simp [serveUnaryCall, chainUnaryServer, newGRPCServerChain, prometheusUnaryServerInterceptor,
      grpcauthUnaryServerInterceptor, authenticationLoggingInterceptor, hA]
  · intro he
    rcases hA : authFunc ctx with ⟨c2, r⟩
    rw [hA] at he
    simp only at he
    subst he
    simp [serveUnaryCall, chainUnaryServer, newGRPCServerChain, prometheusUnaryServerInterceptor,
      grpcauthUnaryServerInterceptor, authenticationLoggingInterceptor, hA]

/-- An auth decision function that rejects every call. -/
def rejectAllAuthFunc : GrpcCtx → GrpcCtx × Option ErrorVal :=
  fun ctx => (ctx, some (plainErr "unauthenticated"))

/-- An auth decision function that allows every call. -/
def allowAllAuthFunc : GrpcCtx → GrpcCtx × Option ErrorVal :=
  fun ctx => (ctx, none)

/-- A stand-in business handler emitting one business event. -/
def exampleHandler : UnaryHandler := fun _ => ([CallEvent.businessEvent 7], none)

/-- Witness for C7: a rejected call records only the rejection and the
metrics failure observation (no business event), and an allowed call runs
the business handler after the auth decision. -/
theorem authInterceptor_before_handler_and_metrics_witness :
    serveUnaryCall true rejectAllAuthFunc exampleHandler { id := 3 } =
      ([CallEvent.authRejected, CallEvent.metricsObserved false],
        some (plainErr "unauthenticated")) ∧
    serveUnaryCall true allowAllAuthFunc exampleHandler { id := 3 } =
      (CallEvent.authAllowed :: CallEvent.logObserved ::
          [CallEvent.businessEvent 7, CallEvent.metricsObserved true], none) := by
  constructor
  · exact (authInterceptor_before_handler_and_metrics rejectAllAuthFunc exampleHandler
      { id := 3 }).1 (plainErr "unauthenticated") rfl
  · exact (authInterceptor_before_handler_and_metrics allowAllAuthFunc exampleHandler
      { id := 3 }).2 rfl

/-- Counterexample for C8: with authentication disabled, `newHTTPServer`
builds a mux without a `/login` handler (nor `/callback` or `/login_page`),
so the claim that the mux always exposes all six routes is false. -/
theorem newHTTPServer_noauth_lacks_login :
    (newHTTPServer false none).toOption = some ["/healthcheck", "/api/v1/openapi", "/"] ∧
    "/login" ∉ ["/healthcheck", "/api/v1/openapi", "/"] := by decide

/-- C8 (amended): when authentication is enabled and gateway registration
succeeds, the mux built by `newHTTPServer` exposes handlers for `/login`,
`/callback`, `/login_page`, `/healthcheck`, `/api/v1/openapi` and `/` (the
gateway mux), and the `/healthcheck` handler responds with status 200; with
authentication disabled the three auth routes are not registered. -/
theorem newHTTPServer_auth_routes (registerResult : Option ErrorVal) (routes : List String)
    (hok : newHTTPServer true registerResult = .ok routes) :
    "/login" ∈ routes ∧ "/callback" ∈ routes ∧ "/login_page" ∈ routes ∧
    "/healthcheck" ∈ routes ∧ "/api/v1/openapi" ∈ routes ∧ "/" ∈ routes ∧
    (∀ r, healthcheckHandler r = 200) := by
  cases registerResult with
  | some e => exact absurd hok (by simp [newHTTPServer])
  | none =>
    simp only [newHTTPServer] at hok
    injection hok with hroutes
    subst hroutes
    refine ⟨by decide, by decide, by decide, by decide, by decide, by decide, fun r => rfl⟩

/-- Witness for C8 (amended): the auth-enabled mux with successful gateway
registration contains all six routes. -/
theorem newHTTPServer_auth_routes_witness :
    "/login" ∈ ["/healthcheck", "/api/v1/openapi", "/login_page", "/login", "/callback", "/"] ∧
    "/callback" ∈ ["/healthcheck", "/api/v1/openapi", "/login_page", "/login", "/callback", "/"] ∧
    "/login_page" ∈ ["/healthcheck", "/api/v1/openapi", "/login_page", "/login", "/callback", "/"] ∧
    "/healthcheck" ∈ ["/healthcheck", "/api/v1/openapi", "/login_page", "/login", "/callback", "/"] ∧
    "/api/v1/openapi" ∈ ["/healthcheck", "/api/v1/openapi", "/login_page", "/login", "/callback", "/"] ∧
    "/" ∈ ["/healthcheck", "/api/v1/openapi", "/login_page", "/login", "/callback", "/"] ∧
    (∀ r, healthcheckHandler r = 200) :=
  newHTTPServer_auth_routes none
    ["/healthcheck", "/api/v1/openapi", "/login_page", "/login", "/callback", "/"] rfl

/-- Options whose deprecated client-secret-file path differs from the
configured client secret name, to separate the two possible read locations. -/
def deprecatedModeOptions : OpenIDOptions :=
  { BaseURL := { scheme := "https", host := "idp.example", path := "" }
    ClientID := "flyteadmin"
    ClientSecretName := "oidc_client_secret"
    DeprecatedClientSecretFile := "/etc/secrets/deprecated_client_secret"
    Scopes := ["openid"] }

/-- A file system where the deprecated path and the secret-name path hold
distinct contents. -/
def distinguishingDeps : SetupDeps :=
  { depsAllOk with
      readFile := fun p =>
        .ok (if p = "/etc/secrets/deprecated_client_secret" then "deprecated-file-secret"
             else "secret-name-file-secret") }

def examplePublicBaseUrl : URL := { scheme := "https", host := "admin.example", path := "" }

def exampleProviderEndpoint : Endpoint :=
  { authURL := "https://idp.example/authorize", tokenURL := "https://idp.example/token" }

/-- Counterexample for C6: with the deprecated client-secret-file option set
to `/etc/secrets/deprecated_client_secret` while the configured client
secret name is `oidc_client_secret`, `GetOAuth2ClientConfig` resolves the
secret by reading the file at the *secret name*, not at the deprecated file
path, so the claim that the deprecated local file path is read is false. -/
theorem getOAuth2ClientConfig_reads_secret_name_path :
    ((GetOAuth2ClientConfig distinguishingDeps deprecatedModeOptions examplePublicBaseUrl
        exampleProviderEndpoint).toOption.map (fun cfg => cfg.ClientSecret)) =
      some "secret-name-file-secret" ∧
    (distinguishingDeps.readFile deprecatedModeOptions.DeprecatedClientSecretFile).toOption =
      some "deprecated-file-secret" ∧
    "secret-name-file-secret" ≠ "deprecated-file-secret" := by decide

/-- Rendering a scheme+host URL with path `/callback` yields
`{scheme}://{host}/callback`. -/
theorem renderSchemeHostCallback (s h : String) (hs : s ≠ "") (hh : h ≠ "") :
    URL.render { scheme := s, host := h, path := "/callback" } =
      s ++ "://" ++ h ++ "/callback" := by
  have hlit : ∀ x : String, ":" ++ ("//" ++ x) = "://" ++ x := by
    intro x
    rw [← String.append_assoc]
    rfl
  simp only [URL.render]
  rw [if_pos hs, if_pos hh]
  simp only [String.append_assoc]
  rw [hlit]

/-- C6 (amended): `GetOAuth2ClientConfig` resolves the client secret from
the secret accessor under the configured secret name when the deprecated
client-secret-file option is unset, and by reading the local file at the
path given by the *configured secret name* when that option is set; in both
cases one trailing newline is trimmed, and the returned redirect URL is the
public HTTP base URL resolved against `/callback`, i.e.
`{scheme}://{host}/callback`. -/
theorem getOAuth2ClientConfig_resolution (deps : SetupDeps) (options : OpenIDOptions)
    (base : URL) (ep : Endpoint) :
    (¬options.DeprecatedClientSecretFile.length > 0 →
      ∀ s, deps.smGet options.ClientSecretName = .ok s →
        GetOAuth2ClientConfig deps options base ep =
          .ok { RedirectURL := (base.resolveReference callbackRelativeUrl).render
                ClientID := options.ClientID
                ClientSecret := strTrimSuffix s "\n"
                Scopes := options.Scopes
                Endpoint := ep }) ∧
    (options.DeprecatedClientSecretFile.length > 0 →
      ∀ s, deps.readFile options.ClientSecretName = .ok s →
        GetOAuth2ClientConfig deps options base ep =
          .ok { RedirectURL := (base.resolveReference callbackRelativeUrl).render
                ClientID := options.ClientID
                ClientSecret := strTrimSuffix s "\n"
                Scopes := options.Scopes
                Endpoint := ep }) ∧
    (base.scheme ≠ "" → base.host ≠ "" →
      (base.resolveReference callbackRelativeUrl).render =
        base.scheme ++ "://" ++ base.host ++ "/callback") := by
  refine ⟨?_, ?_, ?_⟩
  · intro hdep s hs
    simp [GetOAuth2ClientConfig, hdep, hs]
  · intro hdep s hs
    simp [GetOAuth2ClientConfig, hdep, hs]
  · intro hscheme hhost
    have hres : base.resolveReference callbackRelativeUrl =
        { scheme := base.scheme, host := base.host, path := "/callback" } := by
      simp [URL.resolveReference, callbackRelativeUrl]
    rw [hres]
    exact renderSchemeHostCallback base.scheme base.host hscheme hhost

/-- Witness for C6 (amended): both resolution modes and the redirect-URL
shape, at concrete inputs (note the trailing-newline trim in the secret
manager mode). -/
theorem getOAuth2ClientConfig_resolution_witness :
    GetOAuth2ClientConfig depsAllOk exampleAuthConfig.UserAuth.OpenID examplePublicBaseUrl
        exampleProviderEndpoint =
      .ok { RedirectURL := "https://admin.example/callback"
            ClientID := "flyteadmin"
            ClientSecret := "secret-oidc_client_secret"
            Scopes := ["openid", "profile"]
            Endpoint := exampleProviderEndpoint } ∧
    GetOAuth2ClientConfig distinguishingDeps deprecatedModeOptions examplePublicBaseUrl
        exampleProviderEndpoint =
      .ok { RedirectURL := "https://admin.example/callback"
            ClientID := "flyteadmin"
            ClientSecret := "secret-name-file-secret"
            Scopes := ["openid"]
            Endpoint := exampleProviderEndpoint } := by
  constructor
  · have h := (getOAuth2ClientConfig_resolution depsAllOk exampleAuthConfig.UserAuth.OpenID
      examplePublicBaseUrl exampleProviderEndpoint).1 (by decide)
      "secret-oidc_client_secret" rfl
    rw [h]
    refine congrArg Except.ok ?_
    decide
  · have h := (getOAuth2ClientConfig_resolution distinguishingDeps deprecatedModeOptions
      examplePublicBaseUrl exampleProviderEndpoint).2.1 (by decide)
      "secret-name-file-secret" rfl
    rw [h]
    refine congrArg Except.ok ?_
    decide

/-- C10: `PrepareFlyteWorkflow` errors exactly when the input's execution ID
is nil or the target workflow is nil; in either error case it returns before
mutating, leaving the workflow unchanged; with both non-nil it returns no
error. -/
theorem prepareFlyteWorkflow_validation (input : PrepareFlyteWorkflowInput)
    (wf : Option FlyteWorkflow) :
    ((PrepareFlyteWorkflow input wf).2 ≠ none ↔
      (input.executionID = none ∨ wf = none)) ∧
    (input.executionID = none ∨ wf = none → (PrepareFlyteWorkflow input wf).1 = wf) ∧
    (input.executionID ≠ none → wf ≠ none → (PrepareFlyteWorkflow input wf).2 = none) := by
  cases hid : input.executionID with
  | none =>
    refine ⟨by simp [PrepareFlyteWorkflow, hid], by simp [PrepareFlyteWorkflow, hid],
      fun hne _ => absurd rfl hne⟩
  | some eid =>
    cases wf with
    | none =>
      refine ⟨by simp [PrepareFlyteWorkflow, hid], by simp [PrepareFlyteWorkflow, hid],
        fun _ hne => absurd rfl hne⟩
    | some w =>
      refine ⟨by simp [PrepareFlyteWorkflow, hid], ?_, by simp [PrepareFlyteWorkflow, hid]⟩
      rintro (h | h) <;> simp at h

/-- A minimal concrete `PrepareFlyteWorkflow` input with a nil execution ID. -/
def inputNilExecID : PrepareFlyteWorkflowInput :=
  { executionID := none
    acceptedAt := 0
    labels := none
    annotations := none
    taskPluginOverrides := []
    executionConfig := none
    auth := none
    recoveryExecution := none
    taskResources := none
    eventVersion := 0
    roleNameKey := "iam.amazonaws.com/role"
    rawOutputDataConfig := none }

/-- The same input with a concrete execution ID. -/
def inputWithExecID : PrepareFlyteWorkflowInput :=
  { inputNilExecID with
      executionID := some { project := "proj", domain := "dev", name := "exec1" } }

/-- An empty target workflow object. -/
def emptyFlyteWorkflow : FlyteWorkflow :=
  { executionID := none
    acceptedAt := none
    serviceAccountName := ""
    labels := none
    annotations := none
    workflowMeta := none
    executionConfig :=
      { taskPluginImpls := [], maxParallelism := 0, recoveryExecution := none
        taskResources := V1TaskResources.zeroTR }
    rawOutputDataConfig := none }

/-- Witness for C10: a nil execution ID leaves the workflow untouched and
errors; a nil workflow errors; both non-nil succeeds. -/
theorem prepareFlyteWorkflow_validation_witness :
    (PrepareFlyteWorkflow inputNilExecID (some emptyFlyteWorkflow)).1 =
        some emptyFlyteWorkflow ∧
    (PrepareFlyteWorkflow inputWithExecID none).2 ≠ none ∧
    (PrepareFlyteWorkflow inputWithExecID (some emptyFlyteWorkflow)).2 = none := by
  refine ⟨?_, ?_, ?_⟩
  · exact (prepareFlyteWorkflow_validation inputNilExecID (some emptyFlyteWorkflow)).2.1
      (Or.inl rfl)
  · exact (prepareFlyteWorkflow_validation inputWithExecID none).1.mpr (Or.inr rfl)
  · exact (prepareFlyteWorkflow_validation inputWithExecID (some emptyFlyteWorkflow)).2.2
      (by decide) (by decide)

end FlyteAdmin
